import Mathlib

/-!
Shallow embedding of the NCLB Survey App's OTP issuance/validation and
survey-access-control core (TypeScript sources under `src/lib` and
`src/app/api`).  Timestamps are modelled as natural numbers (milliseconds),
JavaScript strings as Lean `String` (byte lists where hashing is involved),
nullable columns as `Option`, and the Prisma-backed store as an explicit
record of tables threaded through each route handler.
-/

namespace NCLB

/-! ## OTP validator (`src/lib/crypto.ts`, `validateOTP`) -/

/-- Result shape of `validateOTP`: `{ valid: boolean; error: string | null }`. -/
structure VResult where
  valid : Bool
  error : Option String
deriving DecidableEq, Repr

/-- Embedding of `validateOTP(providedCode, storedCode, expiry, attempts)`.
`now` stands for the `new Date()` read inside the function.  The JavaScript
guard `!storedCode || !expiry` is truthiness-based: it fires when `storedCode`
is `null` **or the empty string** (an empty string is falsy), and when
`expiry` is `null` (a `Date` object is always truthy).  The `match` below
reproduces exactly that. -/
def validateOTP (now : Nat) (providedCode : String) (storedCode : Option String)
    (expiry : Option Nat) (attempts : Nat) : VResult :=
  if 5 ≤ attempts then ⟨false, some "Too many failed attempts"⟩
  else
    match storedCode, expiry with
    | some stored, some expiryTime =>
      if stored = "" then ⟨false, some "No valid OTP found"⟩
      else if expiryTime < now then ⟨false, some "OTP has expired"⟩
      else if providedCode ≠ stored then ⟨false, some "Invalid OTP code"⟩
      else ⟨true, none⟩
    | _, _ => ⟨false, some "No valid OTP found"⟩

/-! ## Credential generator (`src/lib/crypto.ts`, `generateOTP`)

`generateOTP` draws 4 random bytes, reads them as a 32-bit unsigned integer
`n`, and returns `((n % 900000) + 100000).toString()`.  The random input is
made explicit as the parameter `rand`; decimal rendering of a number is
embedded by structural recursion on a fuel argument so that it evaluates in
the kernel. -/

/-- Least-significant-first decimal digits of `n`, with explicit fuel. -/
def decimalDigitsAux : Nat → Nat → List Nat
  | 0, _ => []
  | fuel + 1, n => if n = 0 then [] else n % 10 :: decimalDigitsAux fuel (n / 10)

/-- Most-significant-first decimal digits of `n` (empty for `0`). -/
def decimalDigits (n : Nat) : List Nat :=
  (decimalDigitsAux (n + 1) n).reverse

/-- JavaScript `Number.prototype.toString()` on a nonnegative integer:
its decimal representation. -/
def natToString (n : Nat) : String :=
  if n = 0 then "0"
  else String.mk ((decimalDigits n).map fun d => Char.ofNat (48 + d))

/-- Embedding of `generateOTP` with the 32-bit random draw `rand` explicit. -/
def generateOTP (rand : Nat) : String :=
  natToString (rand % 900000 + 100000)

/-- The spec's `^\d{6}$` pattern on a string: exactly six characters, each a
decimal digit. -/
def matchesSixDigits (s : String) : Prop :=
  s.length = 6 ∧ ∀ c ∈ s.toList, c.isDigit

instance (s : String) : Decidable (matchesSixDigits s) := by
  unfold matchesSixDigits
  exact instDecidableAnd

lemma decimalDigitsAux_eq_digits :
    ∀ fuel n : Nat, n < fuel → decimalDigitsAux fuel n = Nat.digits 10 n := by
  intro fuel
  induction fuel with
  | zero => intro n h; omega
  | succ fuel ih =>
    intro n h
    by_cases h0 : n = 0
    · subst h0; simp [decimalDigitsAux]
    · have hdiv : n / 10 < fuel := by
        have := Nat.div_lt_self (Nat.pos_of_ne_zero h0) (by norm_num : 1 < 10)
        omega
      simp only [decimalDigitsAux, if_neg h0]
      rw [ih (n / 10) hdiv, Nat.digits_def' (by norm_num : 1 < 10) (Nat.pos_of_ne_zero h0)]

lemma decimalDigits_eq_digits (n : Nat) :
    decimalDigits n = (Nat.digits 10 n).reverse := by
  unfold decimalDigits
  rw [decimalDigitsAux_eq_digits (n + 1) n (Nat.lt_succ_self n)]

lemma digits_length_six {v : Nat} (h1 : 100000 ≤ v) (h2 : v ≤ 999999) :
    (Nat.digits 10 v).length = 6 := by
  have hv : v ≠ 0 := by omega
  rw [Nat.digits_len 10 v (by norm_num) hv]
  have hlog : Nat.log 10 v = 5 :=
    Nat.log_eq_of_pow_le_of_lt_pow (by norm_num; omega) (by norm_num; omega)
  omega

lemma natToString_six {v : Nat} (h1 : 100000 ≤ v) (h2 : v ≤ 999999) :
    matchesSixDigits (natToString v) := by
  have hv : v ≠ 0 := by omega
  constructor
  · rw [natToString, if_neg hv]
    show ((decimalDigits v).map _).length = 6
    rw [List.length_map, decimalDigits_eq_digits, List.length_reverse,
      digits_length_six h1 h2]
  · intro c hc
    rw [natToString, if_neg hv] at hc
    have hc' : c ∈ (decimalDigits v).map (fun d => Char.ofNat (48 + d)) := hc
    obtain ⟨d, hd, rfl⟩ := List.mem_map.mp hc'
    have hd10 : d < 10 := by
      rw [decimalDigits_eq_digits, List.mem_reverse] at hd
      exact Nat.digits_lt_base (by norm_num) hd
    interval_cases d <;> decide

/-- C8: every call of the code generator, for any 32-bit (indeed any) random
input `rand`, returns the decimal rendering of `rand % 900000 + 100000`, a
value lying in [100000, 999999], and the resulting string matches `^\d{6}$`
(exactly six characters, all decimal digits). -/
theorem generateOTP_six_digit_range (rand : Nat) :
    100000 ≤ rand % 900000 + 100000 ∧ rand % 900000 + 100000 ≤ 999999 ∧
    generateOTP rand = natToString (rand % 900000 + 100000) ∧
    matchesSixDigits (generateOTP rand) := by
  have h : rand % 900000 < 900000 := Nat.mod_lt _ (by norm_num)
  exact ⟨by omega, by omega, rfl, natToString_six (by omega) (by omega)⟩

/-- C1 counterexample: with `attempts = 0 < 5`, a non-null stored code
`some ""`, a non-null unexpired expiry, and a submitted code equal to the
stored one, the claim's four-check chain predicts a valid outcome, but
`validateOTP` returns invalid with the no-code error, because the JavaScript
guard `!storedCode` also fires on the (falsy) empty string. -/
theorem validateOTP_claim_counterexample :
    (0:Nat) < 5 ∧ (some "" : Option String) ≠ none ∧ (some 10 : Option Nat) ≠ none ∧
    ¬ (10:Nat) < 0 ∧ ("" : String) = "" ∧
    validateOTP 0 "" (some "") (some 10) 0 ≠ ⟨true, none⟩ ∧
    validateOTP 0 "" (some "") (some 10) 0 = ⟨false, some "No valid OTP found"⟩ := by
  decide

/-- C1 (amended): `validateOTP` evaluates exactly four checks in order:
attempts at the cap → TooManyAttempts; stored code null **or empty**, or
expiry null → NoCodeFound; current time past expiry → Expired; submitted
code differing from stored → Mismatch; otherwise valid with no error. -/
theorem validateOTP_checks_in_order (now : Nat) (code : String)
    (stored : Option String) (expiry : Option Nat) (attempts : Nat) :
    (5 ≤ attempts →
      validateOTP now code stored expiry attempts =
        ⟨false, some "Too many failed attempts"⟩) ∧
    (attempts < 5 → (stored = none ∨ stored = some "" ∨ expiry = none) →
      validateOTP now code stored expiry attempts =
        ⟨false, some "No valid OTP found"⟩) ∧
    (attempts < 5 → ∀ s t, stored = some s → s ≠ "" → expiry = some t → t < now →
      validateOTP now code stored expiry attempts =
        ⟨false, some "OTP has expired"⟩) ∧
    (attempts < 5 → ∀ s t, stored = some s → s ≠ "" → expiry = some t →
      ¬ t < now → code ≠ s →
      validateOTP now code stored expiry attempts =
        ⟨false, some "Invalid OTP code"⟩) ∧
    (attempts < 5 → ∀ s t, stored = some s → s ≠ "" → expiry = some t →
      ¬ t < now → code = s →
      validateOTP now code stored expiry attempts = ⟨true, none⟩) := by
  refine ⟨?_, ?_, ?_, ?_, ?_⟩
  · intro h
    simp [validateOTP, h]
  · intro h hcase
    have h5 : ¬ 5 ≤ attempts := by omega
    rcases hcase with h1 | h1 | h1
    · subst h1; simp [validateOTP, h5]
    · subst h1; cases expiry <;> simp [validateOTP, h5]
    · subst h1; cases stored <;> simp [validateOTP, h5]
  · intro h s t hs hsne ht hlt
    subst hs; subst ht
    have h5 : ¬ 5 ≤ attempts := by omega
    simp [validateOTP, h5, hsne, hlt]
  · intro h s t hs hsne ht hnlt hne
    subst hs; subst ht
    have h5 : ¬ 5 ≤ attempts := by omega
    simp [validateOTP, h5, hsne, hnlt, hne]
  · intro h s t hs hsne ht hnlt heq
    subst hs; subst ht; subst heq
    have h5 : ¬ 5 ≤ attempts := by omega
    simp [validateOTP, h5, hsne, hnlt]

/-- Witness for C1's amended theorem: each of the five branches applied at a
concrete input. -/
theorem validateOTP_checks_in_order_witness :
    validateOTP 0 "111111" (some "222222") (some 10) 7 =
      ⟨false, some "Too many failed attempts"⟩ ∧
    validateOTP 0 "111111" none none 0 = ⟨false, some "No valid OTP found"⟩ ∧
    validateOTP 100 "123456" (some "123456") (some 50) 0 =
      ⟨false, some "OTP has expired"⟩ ∧
    validateOTP 10 "111111" (some "123456") (some 50) 0 =
      ⟨false, some "Invalid OTP code"⟩ ∧
    validateOTP 10 "123456" (some "123456") (some 50) 0 = ⟨true, none⟩ :=
  ⟨(validateOTP_checks_in_order 0 "111111" (some "222222") (some 10) 7).1
      (by decide),
   (validateOTP_checks_in_order 0 "111111" none none 0).2.1 (by decide)
      (Or.inl rfl),
   (validateOTP_checks_in_order 100 "123456" (some "123456") (some 50) 0).2.2.1
      (by decide) "123456" 50 rfl (by decide) rfl (by decide),
   (validateOTP_checks_in_order 10 "111111" (some "123456") (some 50) 0).2.2.2.1
      (by decide) "123456" 50 rfl (by decide) rfl (by decide) (by decide),
   (validateOTP_checks_in_order 10 "123456" (some "123456") (some 50) 0).2.2.2.2
      (by decide) "123456" 50 rfl (by decide) rfl (by decide) rfl⟩

/-! ## Data model (Prisma tables used by the core)

`InvitedUser` mirrors the Prisma `InvitedUser` rows touched by the auth
routes (`remindersSent` is the column the routes use as the failed-attempt
counter).  `SystemSettings` mirrors the single-row settings table.  `Db`
bundles the tables each handler reads and writes: the `AdminUser` table is
kept as its list of emails (the only field the policy consults), and survey
responses as an opaque list of row identifiers (bulk delete only needs
cardinality). -/

structure InvitedUser where
  email : String
  group : String
  hasTaken : Bool
  consented : Bool
  otpCode : Option String
  otpExpiry : Option Nat
  remindersSent : Nat
deriving DecidableEq, Repr

structure SystemSettings where
  productionMode : Bool
  toggledAt : Option Nat
  toggledBy : Option String
deriving DecidableEq, Repr

structure Db where
  admins : List String
  settings : Option SystemSettings
  users : List InvitedUser
  responses : List Nat
deriving DecidableEq, Repr

/-- Lookup of an invited user by email, `prisma.invitedUser.findUnique`. -/
def findUser (db : Db) (email : String) : Option InvitedUser :=
  db.users.find? (fun u => u.email == email)

/-- Update of an invited user by email, `prisma.invitedUser.update`: applies `f` to
the rows whose `email` column matches (at most one row, since the column is
unique). -/
def updateUser (db : Db) (email : String) (f : InvitedUser → InvitedUser) : Db :=
  { db with users := db.users.map (fun u => if u.email == email then f u else u) }

/-! ## Access policy (`src/lib/production-mode.ts`) -/

/-- Result shape of `canAccessSurvey`: `{ allowed: boolean; reason?: string }`. -/
structure AccessResult where
  allowed : Bool
  reason : Option String
deriving DecidableEq, Repr

/-- The fixed denial reason for site administrators. -/
def adminBlockReason : String :=
  "Site administrators cannot participate in surveys. To participate as an Administrator stakeholder, use a different email address (e.g., admin_survey@example.com)."

/-- The fixed denial reason for test accounts in production mode. -/
def testAccountReason : String :=
  "Test accounts are disabled in production mode. Please use a real email address."

/-- Embedding of `isTestAccount`: the email ends with the reserved test
domain suffix. -/
def isTestAccount (email : String) : Bool :=
  email.endsWith "@example.com"

/-- Embedding of `isSiteAdmin`: membership in the `AdminUser` table. -/
def isSiteAdmin (db : Db) (email : String) : Bool :=
  db.admins.contains email

/-- Embedding of `getProductionMode`: the settings row's `productionMode`,
false when the row is absent. -/
def getProductionMode (db : Db) : Bool :=
  (db.settings.map (fun s => s.productionMode)).getD false

/-- Embedding of `canAccessSurvey(email)`: site-administrator exclusion
first and unconditionally, then the production-mode/test-account check,
otherwise allowed. -/
def canAccessSurvey (db : Db) (email : String) : AccessResult :=
  if isSiteAdmin db email then ⟨false, some adminBlockReason⟩
  else if getProductionMode db && isTestAccount email then
    ⟨false, some testAccountReason⟩
  else ⟨true, none⟩

/-- C2: `canAccessSurvey` denies an administrator email with the fixed
administrator reason in every System Mode — even when the email also matches
the test-account convention, since the first conjunct holds with no
assumption on `getProductionMode db` or `isTestAccount email`; only
non-administrators can be denied for the restricted-mode/test-account
reason, and every other email is allowed. -/
theorem canAccessSurvey_admin_first (db : Db) (email : String) :
    (isSiteAdmin db email = true →
      canAccessSurvey db email = ⟨false, some adminBlockReason⟩) ∧
    (isSiteAdmin db email = false → getProductionMode db = true →
      isTestAccount email = true →
      canAccessSurvey db email = ⟨false, some testAccountReason⟩) ∧
    (isSiteAdmin db email = false →
      (getProductionMode db = false ∨ isTestAccount email = false) →
      canAccessSurvey db email = ⟨true, none⟩) := by
  refine ⟨?_, ?_, ?_⟩
  · intro h
    simp [canAccessSurvey, h]
  · intro h hp ht
    simp [canAccessSurvey, h, hp, ht]
  · intro h hcase
    rcases hcase with h1 | h1 <;> simp [canAccessSurvey, h, h1]

/-- Witness for C2: a registered administrator whose email also matches the
test-account convention, while System Mode is restricted, is still denied
with the administrator reason. -/
theorem canAccessSurvey_admin_first_witness :
    canAccessSurvey
        ⟨["admin@example.com"], some ⟨true, none, none⟩, [], []⟩
        "admin@example.com" =
      ⟨false, some adminBlockReason⟩ :=
  (canAccessSurvey_admin_first
      ⟨["admin@example.com"], some ⟨true, none, none⟩, [], []⟩
      "admin@example.com").1 (by decide)

/-! ## Rate limiter (`src/lib/rate-limiter.ts`) -/

/-- One entry of the limiter's `Map`: `{ count, resetTime }`. -/
structure RateLimitEntry where
  count : Nat
  resetTime : Nat
deriving DecidableEq, Repr

/-- The limiter's in-memory `Map<string, RateLimitEntry>`, as a lookup
function. -/
def RLMap : Type := String → Option RateLimitEntry

/-- The empty `Map` a fresh `RateLimiter` starts with. -/
def rlEmpty : RLMap := fun _ => none

/-- Store operation of the limiter's `Map`, used by `check` to install or
mutate an entry. -/
def rlSet (m : RLMap) (identifier : String) (e : RateLimitEntry) : RLMap :=
  fun k => if k == identifier then some e else m k

/-- Embedding of `RateLimiter.check(identifier, limit, windowMs)`; `now` is
the `Date.now()` read at entry.  Returns the boolean result together with
the updated map (in-place mutation of the entry is modelled as a store). -/
def rlCheck (m : RLMap) (identifier : String) (limit windowMs now : Nat) :
    Bool × RLMap :=
  match m identifier with
  | none => (true, rlSet m identifier ⟨1, now + windowMs⟩)
  | some record =>
    if record.resetTime < now then
      (true, rlSet m identifier ⟨1, now + windowMs⟩)
    else if limit ≤ record.count then (false, m)
    else (true, rlSet m identifier ⟨record.count + 1, record.resetTime⟩)

/-- Run a sequence of `(now, identifier)` calls against the limiter with a
fixed limit and window, collecting the boolean results. -/
def rlRun (limit windowMs : Nat) : RLMap → List (Nat × String) → List Bool × RLMap
  | m, [] => ([], m)
  | m, (now, id') :: rest =>
    let r := rlCheck m id' limit windowMs now
    let rec' := rlRun limit windowMs r.2 rest
    (r.1 :: rec'.1, rec'.2)

/-- C6: `check` is a fixed-window counter.  (a) On the first call for a key
it stores count 1 with window end `now + windowMs` and returns true; (b) the
same happens on any call after the stored window end has passed; (c) within
the window it increments and returns true while the count is below the
limit, leaving the window end unchanged; (d) once the count is at or above
the limit it returns false and changes nothing; and (e) six rapid calls of
`check(k, 5, 60000)` from a fresh limiter return true five times then false,
while a further call after the window has elapsed returns true again. -/
theorem rlCheck_fixed_window (m : RLMap) (k : String) (limit windowMs now : Nat) :
    (m k = none →
      rlCheck m k limit windowMs now =
        (true, rlSet m k ⟨1, now + windowMs⟩)) ∧
    (∀ r, m k = some r → r.resetTime < now →
      rlCheck m k limit windowMs now =
        (true, rlSet m k ⟨1, now + windowMs⟩)) ∧
    (∀ r, m k = some r → ¬ r.resetTime < now → r.count < limit →
      rlCheck m k limit windowMs now =
        (true, rlSet m k ⟨r.count + 1, r.resetTime⟩)) ∧
    (∀ r, m k = some r → ¬ r.resetTime < now → limit ≤ r.count →
      rlCheck m k limit windowMs now = (false, m)) ∧
    ((rlRun 5 60000 rlEmpty
        [(0, "k"), (0, "k"), (0, "k"), (0, "k"), (0, "k"), (0, "k")]).1 =
      [true, true, true, true, true, false] ∧
     (rlRun 5 60000 rlEmpty
        [(0, "k"), (0, "k"), (0, "k"), (0, "k"), (0, "k"), (0, "k"),
         (60001, "k")]).1 =
      [true, true, true, true, true, false, true]) := by
  refine ⟨?_, ?_, ?_, ?_, by decide, by decide⟩
  · intro h
    simp [rlCheck, h]
  · intro r h hlt
    simp [rlCheck, h, hlt]
  · intro r h hnlt hcount
    have : ¬ limit ≤ r.count := by omega
    simp [rlCheck, h, hnlt, this]
  · intro r h hnlt hge
    simp [rlCheck, h, hnlt, hge]

/-- Witness for C6: the first call for a fresh key returns true and installs
count 1 with the new window end. -/
theorem rlCheck_fixed_window_witness :
    rlCheck rlEmpty "k" 5 60000 7 = (true, rlSet rlEmpty "k" ⟨1, 60007⟩) :=
  (rlCheck_fixed_window rlEmpty "k" 5 60000 7).1 rfl

/-! ## Global mode transition
(`src/app/api/admin/toggle-production/route.ts`, `POST`) -/

/-- The route's possible JSON responses. -/
inductive ToggleResponse where
  /-- Status 401 `Unauthorized`: no admin session. -/
  | unauthorized
  /-- Status 400 `Must type PRODUCTION to confirm`: bad confirmation string. -/
  | confirmationError
  /-- Status 400 `Already in production mode`. -/
  | alreadyProduction
  /-- Status 200 success payload: deleted-response count, reset-user count,
  actor. -/
  | success (deletedResponses resetUsers : Nat) (activatedBy : String)
deriving DecidableEq, Repr

/-- Embedding of the toggle-production `POST` handler.  `session` is the
admin session email (if any), `confirmation` the body's confirmation field,
`now` the timestamp used for `toggledAt`.  The reset `updateMany` writes
`hasTaken`, `consented`, `otpCode`, `otpExpiry` — and nothing else — on
every `InvitedUser` row; the settings `updateMany` maps over the (at most
one) settings row. -/
def toggleProductionRoute (db : Db) (now : Nat) (session : Option String)
    (confirmation : String) : ToggleResponse × Db :=
  match session with
  | none => (.unauthorized, db)
  | some adminEmail =>
    if confirmation ≠ "PRODUCTION" then (.confirmationError, db)
    else if getProductionMode db then (.alreadyProduction, db)
    else
      let deleted := db.responses.length
      let reset := db.users.length
      ( .success deleted reset adminEmail,
        { db with
            responses := [],
            users := db.users.map fun u =>
              { u with hasTaken := false, consented := false,
                       otpCode := none, otpExpiry := none },
            settings := db.settings.map fun s =>
              { s with productionMode := true, toggledAt := some now,
                       toggledBy := some adminEmail } } )

/-- C5: invoking the transition with a valid session and confirmation while
System Mode is already restricted is rejected with the "already restricted"
error and performs no effect: the returned store is exactly the input store
(no submissions deleted, no Invitations reset, settings untouched). -/
theorem toggleProduction_already_restricted (db : Db) (now : Nat)
    (adminEmail confirmation : String) (s : SystemSettings)
    (hs : db.settings = some s) (hmode : s.productionMode = true)
    (hconf : confirmation = "PRODUCTION") :
    toggleProductionRoute db now (some adminEmail) confirmation =
      (.alreadyProduction, db) := by
  subst hconf
  simp [toggleProductionRoute, getProductionMode, hs, hmode]

/-- Witness for C5: a store already in production mode, with one response
and one invited user, is returned unchanged together with the error. -/
theorem toggleProduction_already_restricted_witness :
    toggleProductionRoute
        ⟨[], some ⟨true, some 5, some "root@x.y"⟩,
         [⟨"a@b.c", "PARENT", true, true, some "123456", some 9, 2⟩], [1, 2]⟩
        50 (some "root@x.y") "PRODUCTION" =
      (.alreadyProduction,
        ⟨[], some ⟨true, some 5, some "root@x.y"⟩,
         [⟨"a@b.c", "PARENT", true, true, some "123456", some 9, 2⟩], [1, 2]⟩) :=
  toggleProduction_already_restricted _ 50 "root@x.y" "PRODUCTION"
    ⟨true, some 5, some "root@x.y"⟩ rfl rfl rfl

/-- C3 counterexample: a successful transition (authorized caller, exact
confirmation, mode not yet restricted) applied to a store whose single
Invitation has a failed-attempt counter of 3 leaves that counter at 3: the
reset `updateMany` does not write `remindersSent`, so the attempt counter is
not reset to its default 0 as the claim states. -/
theorem toggleProduction_attempt_counter_counterexample :
    (toggleProductionRoute
        ⟨[], some ⟨false, none, none⟩,
         [⟨"a@b.c", "PARENT", true, true, some "123456", some 9, 3⟩], [1, 2]⟩
        50 (some "root@x.y") "PRODUCTION").1 =
      .success 2 1 "root@x.y" ∧
    ((toggleProductionRoute
        ⟨[], some ⟨false, none, none⟩,
         [⟨"a@b.c", "PARENT", true, true, some "123456", some 9, 3⟩], [1, 2]⟩
        50 (some "root@x.y") "PRODUCTION").2.users.map
          fun u => u.remindersSent) = [3] ∧
    (3 : Nat) ≠ 0 := by
  decide

/-- C3 (amended): a successful transition deletes all survey submissions,
resets every Invitation's completion flag, consent flag, stored code and
expiry to their defaults while leaving the attempt counter (and email and
group) unchanged, and — when a System Mode record exists — flips it to
restricted, recording the acting administrator and the timestamp. -/
theorem toggleProduction_success_effects (db : Db) (now : Nat)
    (adminEmail : String) (s : SystemSettings)
    (hs : db.settings = some s) (hmode : s.productionMode = false) :
    (toggleProductionRoute db now (some adminEmail) "PRODUCTION").1 =
      .success db.responses.length db.users.length adminEmail ∧
    (toggleProductionRoute db now (some adminEmail) "PRODUCTION").2.responses =
      [] ∧
    (toggleProductionRoute db now (some adminEmail) "PRODUCTION").2.users =
      db.users.map (fun u =>
        { u with hasTaken := false, consented := false,
                 otpCode := none, otpExpiry := none }) ∧
    (∀ u ∈ db.users,
      { u with hasTaken := false, consented := false,
               otpCode := none, otpExpiry := none : InvitedUser}.remindersSent =
        u.remindersSent) ∧
    (toggleProductionRoute db now (some adminEmail) "PRODUCTION").2.settings =
      some { s with productionMode := true, toggledAt := some now,
                    toggledBy := some adminEmail } ∧
    (toggleProductionRoute db now (some adminEmail) "PRODUCTION").2.admins =
      db.admins := by
  have hm : getProductionMode db = false := by
    simp [getProductionMode, hs, hmode]
  refine ⟨?_, ?_, ?_, fun u _ => rfl, ?_, ?_⟩ <;>
    simp [toggleProductionRoute, hm, hs]

/-- Witness for C3's amended theorem: the concrete store from the
counterexample, transitioned successfully. -/
theorem toggleProduction_success_effects_witness :
    (toggleProductionRoute
        ⟨[], some ⟨false, none, none⟩,
         [⟨"a@b.c", "PARENT", true, true, some "123456", some 9, 3⟩], [1, 2]⟩
        50 (some "root@x.y") "PRODUCTION").2.settings =
      some ⟨true, some 50, some "root@x.y"⟩ :=
  (toggleProduction_success_effects
      ⟨[], some ⟨false, none, none⟩,
       [⟨"a@b.c", "PARENT", true, true, some "123456", some 9, 3⟩], [1, 2]⟩
      50 "root@x.y" ⟨false, none, none⟩ rfl rfl).2.2.2.2.1

/-! ## Code redemption (`src/app/api/auth/verify-otp/route.ts`, `POST`) -/

/-- The route's possible JSON responses. -/
inductive VerifyResponse where
  /-- Status 400: body failed schema validation (code not exactly 6
  characters). -/
  | validationError
  /-- Status 403: access policy denial, carrying its reason. -/
  | accessDenied (reason : String)
  /-- Status 400 `Consent is required to participate in this survey`. -/
  | consentRequired
  /-- Status 404 `User not found`. -/
  | userNotFound
  /-- Status 400: OTP validation failure, carrying the error message from
  `validateOTP`. -/
  | otpError (msg : String)
  /-- Status 200 success payload (session issuance is external). -/
  | success (group : String)
deriving DecidableEq, Repr

/-- Embedding of the verify-otp `POST` handler.  After schema validation,
access policy and consent checks, it looks the user up, runs `validateOTP`
on the stored state, and on an invalid outcome writes back
`remindersSent := user.remindersSent + 1` while on success it writes
`consented := true, otpCode := null, otpExpiry := null, remindersSent := 0`. -/
def verifyOTPRoute (db : Db) (now : Nat) (email code : String)
    (consented : Bool) : VerifyResponse × Db :=
  if code.length ≠ 6 then (.validationError, db)
  else
    let access := canAccessSurvey db email
    if access.allowed = false then (.accessDenied (access.reason.getD ""), db)
    else if consented = false then (.consentRequired, db)
    else
      match findUser db email with
      | none => (.userNotFound, db)
      | some user =>
        let v := validateOTP now code user.otpCode user.otpExpiry
          user.remindersSent
        if v.valid = false then
          ( .otpError (v.error.getD ""),
            updateUser db email fun u =>
              { u with remindersSent := user.remindersSent + 1 } )
        else
          ( .success user.group,
            updateUser db email fun u =>
              { u with consented := true, otpCode := none,
                       otpExpiry := none, remindersSent := 0 } )

lemma find?_map_update (l : List InvitedUser) (email : String)
    (g : InvitedUser → InvitedUser) (hg : ∀ u, (g u).email = u.email) :
    (l.map fun u => if u.email == email then g u else u).find?
        (fun u => u.email == email) =
      (l.find? (fun u => u.email == email)).map g := by
  induction l with
  | nil => rfl
  | cons u rest ih =>
    by_cases h : u.email == email
    · simp only [List.map_cons, if_pos h, List.find?_cons]
      rw [show ((g u).email == email) = true by rw [hg]; exact h]
      rw [show (u.email == email) = true from h]
      rfl
    · simp only [List.map_cons, if_neg h, List.find?_cons]
      rw [show (u.email == email) = false from Bool.eq_false_iff.mpr h]
      exact ih

lemma findUser_updateUser (db : Db) (email : String)
    (g : InvitedUser → InvitedUser) (hg : ∀ u, (g u).email = u.email) :
    findUser (updateUser db email g) email = (findUser db email).map g := by
  unfold findUser updateUser
  exact find?_map_update db.users email g hg

/-- C7: whenever the redemption handler reaches OTP validation (schema,
access and consent checks passed, user present), an invalid outcome stores
back the user with the attempt counter incremented by one, and a successful
outcome stores back the user with code and expiry cleared to null and the
counter reset to zero — after which redeeming the very same code again fails
with the no-code error, making each code single-use. -/
theorem verifyOTP_counter_and_single_use (db : Db) (now : Nat)
    (email code : String) (user : InvitedUser)
    (hlen : code.length = 6)
    (hacc : (canAccessSurvey db email).allowed = true)
    (huser : findUser db email = some user) :
    (¬ (validateOTP now code user.otpCode user.otpExpiry
          user.remindersSent).valid = true →
      (verifyOTPRoute db now email code true).1 =
        .otpError ((validateOTP now code user.otpCode user.otpExpiry
          user.remindersSent).error.getD "") ∧
      findUser (verifyOTPRoute db now email code true).2 email =
        some { user with remindersSent := user.remindersSent + 1 }) ∧
    ((validateOTP now code user.otpCode user.otpExpiry
          user.remindersSent).valid = true →
      (verifyOTPRoute db now email code true).1 = .success user.group ∧
      findUser (verifyOTPRoute db now email code true).2 email =
        some { user with consented := true, otpCode := none,
                         otpExpiry := none, remindersSent := 0 } ∧
      (verifyOTPRoute (verifyOTPRoute db now email code true).2
          now email code true).1 =
        .otpError "No valid OTP found") := by
  have hlen' : ¬ code.length ≠ 6 := by omega
  constructor
  · intro hv
    have hv' : (validateOTP now code user.otpCode user.otpExpiry
        user.remindersSent).valid = false := by
      cases hval : (validateOTP now code user.otpCode user.otpExpiry
          user.remindersSent).valid
      · rfl
      · exact absurd hval hv
    constructor
    · simp [verifyOTPRoute, hlen', hacc, huser, hv']
    · have hres : (verifyOTPRoute db now email code true).2 =
          updateUser db email fun u =>
            { u with remindersSent := user.remindersSent + 1 } := by
        simp [verifyOTPRoute, hlen', hacc, huser, hv']
      rw [hres,
        findUser_updateUser db email
          (fun u => { u with remindersSent := user.remindersSent + 1 })
          (fun u => rfl),
        huser]
      rfl
  · intro hv
    have hres : (verifyOTPRoute db now email code true).2 =
        updateUser db email fun u =>
          { u with consented := true, otpCode := none,
                   otpExpiry := none, remindersSent := 0 } := by
      simp [verifyOTPRoute, hlen', hacc, huser, hv]
    have hfind2 : findUser
        (updateUser db email fun u =>
          { u with consented := true, otpCode := none,
                   otpExpiry := none, remindersSent := 0 }) email =
        some { user with consented := true, otpCode := none,
                         otpExpiry := none, remindersSent := 0 } := by
      rw [findUser_updateUser db email
          (fun u => { u with consented := true, otpCode := none,
                             otpExpiry := none, remindersSent := 0 })
          (fun u => rfl),
        huser]
      rfl
    have hfind : findUser (verifyOTPRoute db now email code true).2 email =
        some { user with consented := true, otpCode := none,
                         otpExpiry := none, remindersSent := 0 } := by
      rw [hres]; exact hfind2
    refine ⟨by simp [verifyOTPRoute, hlen', hacc, huser, hv], hfind, ?_⟩
    have hacc2 : (canAccessSurvey
        (updateUser db email fun u =>
          { u with consented := true, otpCode := none,
                   otpExpiry := none, remindersSent := 0 }) email).allowed =
        true := hacc
    rw [hres]
    simp [verifyOTPRoute, hlen', hacc2, hfind2, validateOTP]

/-- Witness for C7: a mismatching submission increments the stored counter,
and a matching submission clears the code and expiry, zeroes the counter,
and makes an immediate replay of the same code fail. -/
theorem verifyOTP_counter_and_single_use_witness :
    ((verifyOTPRoute
        ⟨[], none, [⟨"a@b.c", "PARENT", false, false, some "123456", some 100, 0⟩],
         []⟩ 0 "a@b.c" "654321" true).1 = .otpError "Invalid OTP code" ∧
      findUser (verifyOTPRoute
        ⟨[], none, [⟨"a@b.c", "PARENT", false, false, some "123456", some 100, 0⟩],
         []⟩ 0 "a@b.c" "654321" true).2 "a@b.c" =
        some ⟨"a@b.c", "PARENT", false, false, some "123456", some 100, 1⟩) ∧
    ((verifyOTPRoute
        ⟨[], none, [⟨"a@b.c", "PARENT", false, false, some "123456", some 100, 0⟩],
         []⟩ 0 "a@b.c" "123456" true).1 = .success "PARENT" ∧
      findUser (verifyOTPRoute
        ⟨[], none, [⟨"a@b.c", "PARENT", false, false, some "123456", some 100, 0⟩],
         []⟩ 0 "a@b.c" "123456" true).2 "a@b.c" =
        some ⟨"a@b.c", "PARENT", false, true, none, none, 0⟩ ∧
      (verifyOTPRoute (verifyOTPRoute
        ⟨[], none, [⟨"a@b.c", "PARENT", false, false, some "123456", some 100, 0⟩],
         []⟩ 0 "a@b.c" "123456" true).2 0 "a@b.c" "123456" true).1 =
        .otpError "No valid OTP found") :=
  ⟨(verifyOTP_counter_and_single_use
      ⟨[], none, [⟨"a@b.c", "PARENT", false, false, some "123456", some 100, 0⟩],
       []⟩ 0 "a@b.c" "654321"
      ⟨"a@b.c", "PARENT", false, false, some "123456", some 100, 0⟩
      (by decide) (by decide) (by decide)).1 (by decide),
   (verifyOTP_counter_and_single_use
      ⟨[], none, [⟨"a@b.c", "PARENT", false, false, some "123456", some 100, 0⟩],
       []⟩ 0 "a@b.c" "123456"
      ⟨"a@b.c", "PARENT", false, false, some "123456", some 100, 0⟩
      (by decide) (by decide) (by decide)).2 (by decide)⟩

/-- C10: on an invalid validation outcome the redemption handler stores back
the user with only the attempt counter changed — code, expiry, consent flag
and completion flag are untouched (so a failed attempt never invalidates the
outstanding code before the five-attempt cap) — and no other table or row of
the store is modified. -/
theorem verifyOTP_invalid_frame (db : Db) (now : Nat) (email code : String)
    (user : InvitedUser)
    (hlen : code.length = 6)
    (hacc : (canAccessSurvey db email).allowed = true)
    (huser : findUser db email = some user)
    (hv : (validateOTP now code user.otpCode user.otpExpiry
        user.remindersSent).valid = false) :
    findUser (verifyOTPRoute db now email code true).2 email =
      some { user with remindersSent := user.remindersSent + 1 } ∧
    ({ user with remindersSent := user.remindersSent + 1 } : InvitedUser).otpCode
        = user.otpCode ∧
    ({ user with remindersSent := user.remindersSent + 1 } : InvitedUser).otpExpiry
        = user.otpExpiry ∧
    ({ user with remindersSent := user.remindersSent + 1 } : InvitedUser).consented
        = user.consented ∧
    ({ user with remindersSent := user.remindersSent + 1 } : InvitedUser).hasTaken
        = user.hasTaken ∧
    (verifyOTPRoute db now email code true).2.admins = db.admins ∧
    (verifyOTPRoute db now email code true).2.settings = db.settings ∧
    (verifyOTPRoute db now email code true).2.responses = db.responses ∧
    (∀ u ∈ db.users, u.email ≠ email →
      u ∈ (verifyOTPRoute db now email code true).2.users) := by
  have hlen' : ¬ code.length ≠ 6 := by omega
  have hres : (verifyOTPRoute db now email code true).2 =
      updateUser db email fun u =>
        { u with remindersSent := user.remindersSent + 1 } := by
    simp [verifyOTPRoute, hlen', hacc, huser, hv]
  refine ⟨?_, rfl, rfl, rfl, rfl, ?_, ?_, ?_, ?_⟩
  · rw [hres,
      findUser_updateUser db email
        (fun u => { u with remindersSent := user.remindersSent + 1 })
        (fun u => rfl),
      huser]
    rfl
  · rw [hres]; rfl
  · rw [hres]; rfl
  · rw [hres]; rfl
  · intro u hu hne
    rw [hres]
    show u ∈ db.users.map (fun v =>
      if v.email == email then
        { v with remindersSent := user.remindersSent + 1 }
      else v)
    exact List.mem_map.mpr ⟨u, hu, by simp [hne]⟩

/-- Witness for C10: a mismatching submission against a concrete store
leaves the other user row, the tables, and the target row's code, expiry
and flags unchanged, incrementing only the counter. -/
theorem verifyOTP_invalid_frame_witness :
    findUser (verifyOTPRoute
        ⟨[], none,
         [⟨"a@b.c", "PARENT", false, false, some "123456", some 100, 2⟩,
          ⟨"z@b.c", "TEACHER", false, false, none, none, 0⟩], []⟩
        0 "a@b.c" "654321" true).2 "a@b.c" =
      some ⟨"a@b.c", "PARENT", false, false, some "123456", some 100, 3⟩ :=
  (verifyOTP_invalid_frame
      ⟨[], none,
       [⟨"a@b.c", "PARENT", false, false, some "123456", some 100, 2⟩,
        ⟨"z@b.c", "TEACHER", false, false, none, none, 0⟩], []⟩
      0 "a@b.c" "654321"
      ⟨"a@b.c", "PARENT", false, false, some "123456", some 100, 2⟩
      (by decide) (by decide) (by decide) (by decide)).1

/-! ## Code issuance (`src/app/api/auth/request-otp/route.ts`, `POST`)

The handler checks the access policy, looks the email up in the whitelist,
rejects users who already completed the survey, then generates a code,
persists it with a 10-minute expiry and a zeroed attempt counter, and
reports the outcome of sending the email.  It never consults the rate
limiter: `src/lib/rate-limiter.ts` defines `RATE_LIMITS.OTP_REQUEST`
(5 requests per 60 s) and a `withRateLimit` wrapper, but no auth route
imports or applies either, so the embedding has no rate-limit branch to
translate. -/

/-- The route's possible JSON responses (there is no 429 rate-limit
response in the source). -/
inductive RequestResponse where
  /-- Status 403: access policy denial, carrying its reason. -/
  | accessDenied (reason : String)
  /-- Status 404 `Email not authorized for this survey`. -/
  | notWhitelisted
  /-- Status 409 `You have already completed this survey`. -/
  | alreadyCompleted
  /-- Status 500 `Failed to send access code. Please try again.` -/
  | emailFailed
  /-- Status 200 success. -/
  | success
deriving DecidableEq, Repr

/-- Embedding of the request-otp `POST` handler.  `rand` is the 32-bit
random draw consumed by `generateOTP`, `now` the `Date.now()` read for the
expiry, `emailSendOk` the boolean result of the outbound-email collaborator
(always true when email sending is skipped in development).  Note that the
store update happens before the email-failure check, exactly as in the
source. -/
def requestOTPRoute (db : Db) (now : Nat) (email : String) (rand : Nat)
    (emailSendOk : Bool) : RequestResponse × Db :=
  let access := canAccessSurvey db email
  if access.allowed = false then (.accessDenied (access.reason.getD ""), db)
  else
    match findUser db email with
    | none => (.notWhitelisted, db)
    | some user =>
      if user.hasTaken then (.alreadyCompleted, db)
      else
        let db' := updateUser db email fun u =>
          { u with otpCode := some (generateOTP rand),
                   otpExpiry := some (now + 10 * 60 * 1000),
                   remindersSent := 0 }
        if emailSendOk = false then (.emailFailed, db')
        else (.success, db')

/-- Fold a list of `(now, rand)` request pairs for a fixed email through the
handler, collecting the responses. -/
def requestOTPRuns (db : Db) (email : String) :
    List (Nat × Nat) → List RequestResponse × Db
  | [] => ([], db)
  | (now, rand) :: rest =>
    let r := requestOTPRoute db now email rand true
    let rec' := requestOTPRuns r.2 email rest
    (r.1 :: rec'.1, rec'.2)

/-- C4 evidence: six rapid code requests (all within one 60-second window,
far below `RATE_LIMITS.OTP_REQUEST`'s reset horizon) from the same caller
for the same whitelisted address all succeed, and after the sixth the store
holds the sixth freshly generated code — no request was rejected with a
rate-limit error and generation was never skipped, contradicting the
claimed Access Policy → Rate Limiter → Credential Generator flow. -/
theorem requestOTP_no_rate_limiting :
    (requestOTPRuns
        ⟨[], none, [⟨"a@b.c", "PARENT", false, false, none, none, 0⟩], []⟩
        "a@b.c"
        [(0, 0), (1, 1), (2, 2), (3, 3), (4, 4), (5, 5)]).1 =
      [.success, .success, .success, .success, .success, .success] ∧
    findUser (requestOTPRuns
        ⟨[], none, [⟨"a@b.c", "PARENT", false, false, none, none, 0⟩], []⟩
        "a@b.c"
        [(0, 0), (1, 1), (2, 2), (3, 3), (4, 4), (5, 5)]).2 "a@b.c" =
      some ⟨"a@b.c", "PARENT", false, false, some "100005", some 600005, 0⟩ := by
  decide

/-! ## Anonymization hash (`src/lib/crypto.ts`, `hashEmail`)

`hashEmail` feeds `email + (process.env.ANONYMIZATION_SALT || 'default-salt')`
to SHA-256 and keeps the first 16 characters of the lowercase hex digest.
The external `crypto.createHash('sha256')` is embedded as the SHA-256
function itself (FIPS 180-4), over byte lists; strings are modelled as their
lists of character codes. -/

/-- Modulus of SHA-256 word arithmetic, 2^32. -/
def M32 : Nat := 4294967296

/-- Truncation to a 32-bit word. -/
def mask32 (x : Nat) : Nat := x % M32

/-- Right rotation of a 32-bit word by `n` bits. -/
def rotr (n x : Nat) : Nat := mask32 (x / 2 ^ n + x % 2 ^ n * 2 ^ (32 - n))

/-- Logical right shift. -/
def shr (n x : Nat) : Nat := x / 2 ^ n

def bigSigma0 (x : Nat) : Nat := rotr 2 x ^^^ rotr 13 x ^^^ rotr 22 x
def bigSigma1 (x : Nat) : Nat := rotr 6 x ^^^ rotr 11 x ^^^ rotr 25 x
def smallSigma0 (x : Nat) : Nat := rotr 7 x ^^^ rotr 18 x ^^^ shr 3 x
def smallSigma1 (x : Nat) : Nat := rotr 17 x ^^^ rotr 19 x ^^^ shr 10 x

def chFn (e f g : Nat) : Nat := (e &&& f) ^^^ ((e ^^^ 4294967295) &&& g)
def majFn (a b c : Nat) : Nat := (a &&& b) ^^^ (a &&& c) ^^^ (b &&& c)

/-- The 64 SHA-256 round constants (FIPS 180-4 §4.2.2, written in
decimal). -/
def roundK : List Nat :=
  [1116352408, 1899447441, 3049323471, 3921009573,
   961987163, 1508970993, 2453635748, 2870763221,
   3624381080, 310598401, 607225278, 1426881987,
   1925078388, 2162078206, 2614888103, 3248222580,
   3835390401, 4022224774, 264347078, 604807628,
   770255983, 1249150122, 1555081692, 1996064986,
   2554220882, 2821834349, 2952996808, 3210313671,
   3336571891, 3584528711, 113926993, 338241895,
   666307205, 773529912, 1294757372, 1396182291,
   1695183700, 1986661051, 2177026350, 2456956037,
   2730485921, 2820302411, 3259730800, 3345764771,
   3516065817, 3600352804, 4094571909, 275423344,
   430227734, 506948616, 659060556, 883997877,
   958139571, 1322822218, 1537002063, 1747873779,
   1955562222, 2024104815, 2227730452, 2361852424,
   2428436474, 2756734187, 3204031479, 3329325298]

/-- The eight 32-bit state words of SHA-256. -/
structure Hash8 where
  w0 : Nat
  w1 : Nat
  w2 : Nat
  w3 : Nat
  w4 : Nat
  w5 : Nat
  w6 : Nat
  w7 : Nat
deriving DecidableEq, Repr

/-- SHA-256 initial hash value (FIPS 180-4 §5.3.3, written in decimal). -/
def initH : Hash8 :=
  ⟨1779033703, 3144134277, 1013904242, 2773480762,
   1359893119, 2600822924, 528734635, 1541459225⟩

/-- SHA-256 padding: append `0x80`, zeros, and the 64-bit big-endian bit
length, to a multiple of 64 bytes. -/
def padMessage (m : List Nat) : List Nat :=
  let L := m.length
  let zeros := (119 - L % 64) % 64
  let lenBits := 8 * L
  m ++ 128 :: List.replicate zeros 0 ++
    (List.range 8).map fun i => lenBits / 2 ^ (8 * (7 - i)) % 256

/-- Big-endian assembly of one 64-byte chunk into 16 32-bit words. -/
def chunkWords (c : List Nat) : List Nat :=
  (List.range 16).map fun j =>
    c.getD (4 * j) 0 * 16777216 + c.getD (4 * j + 1) 0 * 65536 +
      c.getD (4 * j + 2) 0 * 256 + c.getD (4 * j + 3) 0

/-- Extension of the 16 chunk words to the 64-entry message schedule. -/
def extendSchedule (w16 : List Nat) : List Nat :=
  (List.range 48).foldl
    (fun w _ =>
      let n := w.length
      w ++ [mask32 (w.getD (n - 16) 0 + smallSigma0 (w.getD (n - 15) 0) +
        w.getD (n - 7) 0 + smallSigma1 (w.getD (n - 2) 0))])
    w16

/-- One SHA-256 compression round over the working variables. -/
def roundStep (s : Nat × Nat × Nat × Nat × Nat × Nat × Nat × Nat)
    (wk : Nat × Nat) : Nat × Nat × Nat × Nat × Nat × Nat × Nat × Nat :=
  match s with
  | (a, b, c, d, e, f, g, h) =>
    let t1 := mask32 (h + bigSigma1 e + chFn e f g + wk.2 + wk.1)
    let t2 := mask32 (bigSigma0 a + majFn a b c)
    (mask32 (t1 + t2), a, b, c, mask32 (d + t1), e, f, g)

/-- Compression of one 64-byte chunk into the running hash. -/
def compressChunk (H : Hash8) (chunk : List Nat) : Hash8 :=
  let ws := extendSchedule (chunkWords chunk)
  match (ws.zip roundK).foldl roundStep
      (H.w0, H.w1, H.w2, H.w3, H.w4, H.w5, H.w6, H.w7) with
  | (a, b, c, d, e, f, g, h) =>
    ⟨mask32 (H.w0 + a), mask32 (H.w1 + b), mask32 (H.w2 + c),
     mask32 (H.w3 + d), mask32 (H.w4 + e), mask32 (H.w5 + f),
     mask32 (H.w6 + g), mask32 (H.w7 + h)⟩

/-- SHA-256 of a byte list: pad, split into 64-byte chunks, compress.
(Checked during development against the FIPS 180-4 test vectors for `""`,
`"abc"` and the 448-bit two-block message.) -/
def sha256 (m : List Nat) : Hash8 :=
  let p := padMessage m
  ((List.range (p.length / 64)).map fun i => (p.drop (64 * i)).take 64).foldl
    compressChunk initH

/-- Lowercase hexadecimal digit character code. -/
def hexCharCode (d : Nat) : Nat := if d < 10 then 48 + d else 87 + d

/-- The eight hex character codes of one 32-bit word, most significant
nibble first. -/
def wordHex (w : Nat) : List Nat :=
  (List.range 8).map fun i => hexCharCode (w / 16 ^ (7 - i) % 16)

/-- The hash state as its list of eight words. -/
def digestWords (H : Hash8) : List Nat :=
  [H.w0, H.w1, H.w2, H.w3, H.w4, H.w5, H.w6, H.w7]

/-- Hex digest of the hash, `hash.digest` in hex mode: the 64 hex character
codes of the digest. -/
def sha256Hex (m : List Nat) : List Nat :=
  ((digestWords (sha256 m)).map wordHex).flatten

/-- A string as its list of character codes. -/
def strBytes (s : String) : List Nat := s.toList.map Char.toNat

/-- The fallback salt `'default-salt'` used when `ANONYMIZATION_SALT` is
unset. -/
def defaultSalt : List Nat := strBytes "default-salt"

/-- Embedding of `hashEmail`: SHA-256 over the concatenation of the email
and the salt, hex-encoded, truncated to the first 16 characters
(`substring(0, 16)`). -/
def hashEmail (email : List Nat) (salt : List Nat) : List Nat :=
  (sha256Hex (email ++ salt)).take 16

lemma wordHex_length (w : Nat) : (wordHex w).length = 8 := by
  simp [wordHex]

lemma mem_wordHex_hex {c w : Nat} (h : c ∈ wordHex w) :
    (48 ≤ c ∧ c ≤ 57) ∨ (97 ≤ c ∧ c ≤ 102) := by
  obtain ⟨i, _, rfl⟩ := List.mem_map.mp h
  have hd : w / 16 ^ (7 - i) % 16 < 16 := Nat.mod_lt _ (by norm_num)
  unfold hexCharCode
  split <;> omega

lemma sha256Hex_length (m : List Nat) : (sha256Hex m).length = 64 := by
  simp [sha256Hex, digestWords, wordHex_length]

lemma mem_sha256Hex_hex {c : Nat} {m : List Nat} (h : c ∈ sha256Hex m) :
    (48 ≤ c ∧ c ≤ 57) ∨ (97 ≤ c ∧ c ≤ 102) := by
  obtain ⟨l, hl, hc⟩ := List.mem_flatten.mp h
  obtain ⟨w, _, rfl⟩ := List.mem_map.mp hl
  exact mem_wordHex_hex hc

/-- C9: `hashEmail` is deterministic (equal email and salt inputs give equal
outputs), always returns exactly 16 characters, and its output — consisting
of lowercase hex characters only — never contains the input email as a
substring, for any email containing the character `'@'` (code 64), since
`'@'` is not a hex character. -/
theorem hashEmail_deterministic_16_no_leak (email salt : List Nat) :
    (∀ e' s', email = e' → salt = s' → hashEmail email salt = hashEmail e' s') ∧
    (hashEmail email salt).length = 16 ∧
    (64 ∈ email → ¬ email <:+: hashEmail email salt) := by
  refine ⟨?_, ?_, ?_⟩
  · intro e' s' he hs
    rw [he, hs]
  · rw [hashEmail, List.length_take, sha256Hex_length]
    decide
  · intro hat hinf
    have h64 : (64 : Nat) ∈ hashEmail email salt := hinf.subset hat
    have h64' : (64 : Nat) ∈ sha256Hex (email ++ salt) :=
      List.mem_of_mem_take h64
    rcases mem_sha256Hex_hex h64' with h | h <;> omega

/-- Witness for C9: the three-character email `'a@b'` (codes 97, 64, 98) is
not a substring of its own hash token. -/
theorem hashEmail_no_leak_witness :
    ¬ [97, 64, 98] <:+: hashEmail [97, 64, 98] defaultSalt :=
  (hashEmail_deterministic_16_no_leak [97, 64, 98] defaultSalt).2.2 (by decide)

end NCLB
